import Mathlib

/-
Verification of the Telisaran reckoning module (src/reckoning/telisaran.py).

The definitions below are a shallow embedding of the Python source: every
constructor (the Python init methods) becomes an Except-returning function that
mirrors the source's validation checks line by line, and every derived quantity
(the as_seconds properties, the int conversions, from_seconds) becomes a plain
function on the embedded structures.  All arithmetic is on Nat: every input the
theorems probe is non-negative, and for the magnitudes involved (below 2^53)
the source's int(a / b) on Python floats coincides with floor division.
-/

namespace Telisaran

/-- Error taxonomy of the source module: one constructor per exception class the
modelled code paths can raise, plus typeError for the TypeError Python itself
raises when an init method returns a non-None value. -/
inductive Err where
  | invalidEra
  | invalidYear
  | invalidSeason
  | invalidDay
  | invalidHour
  | invalidDate
  | typeError
  deriving DecidableEq

/-- Day name table of the source; the span length is defined as its length. -/
def Day.names : List String := ["Syfdag", "Mimdag", "Wodag", "Thordag", "Freydag"]

/-- Length of a minute in seconds (source: Minute.length_in_seconds = 60). -/
def Minute.length_in_seconds : Nat := 60

/-- Length of an hour in seconds (source: 60 * Minute.length_in_seconds). -/
def Hour.length_in_seconds : Nat := 60 * Minute.length_in_seconds

/-- Length of a day in seconds (source: 24 * Hour.length_in_seconds). -/
def Day.length_in_seconds : Nat := 24 * Hour.length_in_seconds

/-- Days per span (source: len(Day.names)). -/
def Span.length_in_days : Nat := Day.names.length

/-- Length of a span in seconds. -/
def Span.length_in_seconds : Nat := Span.length_in_days * Day.length_in_seconds

/-- Season name table of the source (8 regular seasons). -/
def Season.names : List String :=
  ["Fox", "Owl", "Wolf", "Eagle", "Shark", "Lion", "Raven", "Bear"]

/-- Spans per regular season (source: Season.length_in_spans = 9). -/
def Season.length_in_spans : Nat := 9

/-- Days per regular season (source: length_in_spans * Span.length_in_days). -/
def Season.length_in_days : Nat := Season.length_in_spans * Span.length_in_days

/-- Length of a regular season in seconds. -/
def Season.length_in_seconds : Nat := Season.length_in_days * Day.length_in_seconds

/-- Spans in the Festival Of The Hunt (source class attribute). -/
def FestivalOfTheHunt.length_in_spans : Nat := 1

/-- Days in the Festival Of The Hunt (source class attribute = 5). -/
def FestivalOfTheHunt.length_in_days : Nat := 5

/-- Length of the Festival Of The Hunt in seconds. -/
def FestivalOfTheHunt.length_in_seconds : Nat :=
  FestivalOfTheHunt.length_in_days * Day.length_in_seconds

/-- Regular seasons per year (source: len(Season.names)). -/
def Year.length_in_seasons : Nat := Season.names.length

/-- Spans per year: 8 seasons of 9 spans plus the festival span (source line 541). -/
def Year.length_in_spans : Nat := Year.length_in_seasons * Season.length_in_spans + 1

/-- Days per year (source line 542). -/
def Year.length_in_days : Nat := Year.length_in_spans * Span.length_in_days

/-- Length of a year in seconds (source line 543). -/
def Year.length_in_seconds : Nat := Year.length_in_days * Day.length_in_seconds

/-- Long era name table of the source (3 entries). -/
def Era.long_names : List String := ["Ancient Era", "Old Era", "Modern Era"]

/-- Length of an era in seconds (source: 10000 * Year.length_in_seconds). -/
def Era.length_in_seconds : Nat := 10000 * Year.length_in_seconds

/-- An Era value: its ordinal and its optional last year.  The source's
attribute is named end; end is a Lean keyword, hence end_year here. -/
structure Era where
  era : Nat
  end_year : Option Nat
  deriving DecidableEq

/-- Era construction (source lines 589-598): rejects era < 1 or
era > len(Era.long_names) + 1, i.e. the check accepts ordinals 1 through 4. -/
def Era.init (era : Nat) (end_year : Option Nat) : Except Err Era :=
  if era < 1 ∨ era > Era.long_names.length + 1 then .error .invalidEra
  else .ok ⟨era, end_year⟩

/-- A Year value: its ordinal and its Era. -/
structure Year where
  year : Nat
  era : Era
  deriving DecidableEq

/-- Year construction (source lines 545-558): rejects year < 1, and rejects
year > era.end when era.end is truthy (not None and not 0), mirroring the
source's if self.era.end and year > self.era.end. -/
def Year.init (year : Nat) (era : Era) : Except Err Year :=
  if year < 1 then .error .invalidYear
  else if (match era.end_year with
           | some e => (e != 0) && decide (year > e)
           | none => false) then .error .invalidYear
  else .ok ⟨year, era⟩

/-- A Season value.  The source has two classes, Season and its subclass
FestivalOfTheHunt; the isFestival flag records which class the instance has.
The year back-reference is modelled by the owning year's ordinal (the source
stores whatever object was passed in: the Year object from Year.init, the
year ordinal from datetime.init). -/
structure Season where
  season_of_year : Nat
  year : Nat
  isFestival : Bool
  deriving DecidableEq

/-- Season construction (source lines 448-457).  For ordinal 9 the source
executes return FestivalOfTheHunt(year) inside init; a Python init method
that returns a non-None value makes the construction raise TypeError, so
constructing Season(9, year) raises rather than yielding the Festival.
Otherwise ordinals outside 1..len(Season.names) raise InvalidSeasonError. -/
def Season.init (season_of_year : Nat) (year : Nat) : Except Err Season :=
  if season_of_year = Season.names.length + 1 then .error .typeError
  else if season_of_year < 1 ∨ season_of_year > Season.names.length then
    .error .invalidSeason
  else .ok ⟨season_of_year, year, false⟩

/-- FestivalOfTheHunt construction (source lines 508-511): always succeeds,
with season_of_year fixed at 9. -/
def FestivalOfTheHunt.init (year : Nat) : Season := ⟨9, year, true⟩

/-- Python attribute lookup of length_in_seconds on a season instance: the
subclass FestivalOfTheHunt overrides the class attribute. -/
def Season.self_length_in_seconds (s : Season) : Nat :=
  if s.isFestival then FestivalOfTheHunt.length_in_seconds else Season.length_in_seconds

/-- Python attribute lookup of length_in_days on a season instance. -/
def Season.self_length_in_days (s : Season) : Nat :=
  if s.isFestival then FestivalOfTheHunt.length_in_days else Season.length_in_days

/-- Season.__int__ (source lines 474-475):
(self.season_of_year - 1) * self.length_in_seconds. -/
def Season.toInt (s : Season) : Nat :=
  (s.season_of_year - 1) * s.self_length_in_seconds

/-- A Day value: its ordinal within its season and the optional owning season. -/
structure Day where
  day_of_season : Nat
  season : Option Season
  deriving DecidableEq

/-- Day construction (source lines 366-379): rejects day_of_season < 1 or
day_of_season > Season.length_in_days.  The bound is the class constant 45;
the season argument is stored but never consulted by the validation. -/
def Day.init (day_of_season : Nat) (season : Option Season) : Except Err Day :=
  if day_of_season < 1 ∨ day_of_season > Season.length_in_days then .error .invalidDay
  else .ok ⟨day_of_season, season⟩

/-- Season.days (source lines 463-468): builds Day(i, season=self) for
i in range(1, Season.length_in_days + 1).  The loop bound is the class constant
Season.length_in_days = 45, also on FestivalOfTheHunt instances; each Day
passes validation since i is at most 45. -/
def Season.days (s : Season) : List Day :=
  (List.range Season.length_in_days).map fun i => ⟨i + 1, some s⟩

/-- Year.seasons (source lines 559-560): Season(i, self) for i in 1..8, then
FestivalOfTheHunt(self) appended.  The source passes the Year object itself as
each season's year; here the year ordinal stands for that back-reference. -/
def Year.seasons (y : Year) : Except Err (List Season) := do
  let regular ← (List.range Year.length_in_seasons).mapM fun i =>
    Season.init (i + 1) y.year
  pure (regular ++ [FestivalOfTheHunt.init y.year])

/-- An Hour value. -/
structure Hour where
  hour : Nat
  deriving DecidableEq

/-- Hour construction (source lines 326-329): rejects hour < 0 or hour > 23. -/
def Hour.init (hour : Nat) : Except Err Hour :=
  if hour < 0 ∨ hour > 23 then .error .invalidHour
  else .ok ⟨hour⟩

/-- A Minute value. -/
structure Minute where
  minute : Nat
  deriving DecidableEq

/-- Minute construction (source lines 292-295): rejects minute < 0 or
minute > 59; the source raises InvalidHourError here as well. -/
def Minute.init (minute : Nat) : Except Err Minute :=
  if minute < 0 ∨ minute > 59 then .error .invalidHour
  else .ok ⟨minute⟩

/-- Era.as_seconds, inherited from DateObject (source line 76):
(number - 1) * length_in_seconds. -/
def Era.as_seconds (e : Era) : Nat := (e.era - 1) * Era.length_in_seconds

/-- Year.as_seconds, inherited from DateObject. -/
def Year.as_seconds (y : Year) : Nat := (y.year - 1) * Year.length_in_seconds

/-- Day.as_seconds, inherited from DateObject. -/
def Day.as_seconds (d : Day) : Nat := (d.day_of_season - 1) * Day.length_in_seconds

/-- Hour.as_seconds (source lines 331-333): number * Hour.length_in_seconds. -/
def Hour.as_seconds (h : Hour) : Nat := h.hour * Hour.length_in_seconds

/-- Minute.as_seconds (source lines 297-299): number * Minute.length_in_seconds. -/
def Minute.as_seconds (m : Minute) : Nat := m.minute * Minute.length_in_seconds

/-- A full datetime value, one component per level. -/
structure datetime where
  era : Era
  year : Year
  season : Season
  day : Day
  hour : Hour
  minute : Minute
  second : Nat
  deriving DecidableEq

/-- datetime construction (source lines 134-154).  Components are validated
top-down; season ordinal 9 is redirected to FestivalOfTheHunt(year) before the
general Season constructor runs (source line 144).  Note line 150 of the
source: self.minute = Minute(hour), so the minute argument is never read. -/
def datetime.init (era year season day hour minute second : Nat) : Except Err datetime :=
  match Era.init era none with
  | .error err => .error err
  | .ok eraO =>
    match Year.init year eraO with
    | .error err => .error err
    | .ok yearO =>
      match (if season = Year.length_in_seasons + 1
             then Except.ok (FestivalOfTheHunt.init year)
             else Season.init season yearO.year) with
      | .error err => .error err
      | .ok seasonO =>
        match Day.init day (some seasonO) with
        | .error err => .error err
        | .ok dayO =>
          match Hour.init hour with
          | .error err => .error err
          | .ok hourO =>
            match Minute.init hour with
            | .error err => .error err
            | .ok minuteO =>
              if second < 0 ∨ second > 59 then .error .invalidDate
              else .ok ⟨eraO, yearO, seasonO, dayO, hourO, minuteO, second⟩

/-- datetime.as_seconds (source lines 228-230):
sum(map(int, [self.era, self.year, self.season, self.day])).  Only the four
date components are summed; hour, minute and second do not contribute. -/
def datetime.as_seconds (d : datetime) : Nat :=
  d.era.as_seconds + d.year.as_seconds + d.season.toInt + d.day.as_seconds

/-- datetime.from_seconds (source lines 243-276): successive floor divisions by
the class-level unit lengths, then the seven values are passed to the
constructor with the 1-indexed ones incremented. -/
def datetime.from_seconds (seconds : Nat) : Except Err datetime :=
  let era := seconds / Era.length_in_seconds
  let e_sec := era * Era.length_in_seconds
  let year := (seconds - e_sec) / Year.length_in_seconds
  let y_sec := year * Year.length_in_seconds
  let season := (seconds - e_sec - y_sec) / Season.length_in_seconds
  let s_sec := season * Season.length_in_seconds
  let day := (seconds - e_sec - y_sec - s_sec) / Day.length_in_seconds
  let d_sec := day * Day.length_in_seconds
  let hour := (seconds - e_sec - y_sec - s_sec - d_sec) / Hour.length_in_seconds
  let h_sec := hour * Hour.length_in_seconds
  let minute := (seconds - e_sec - y_sec - s_sec - d_sec - h_sec) / Minute.length_in_seconds
  let m_sec := minute * Minute.length_in_seconds
  let second := seconds - e_sec - y_sec - s_sec - d_sec - h_sec - m_sec
  datetime.init (era + 1) (year + 1) (season + 1) (day + 1) hour minute second

/-- The seven component ordinals of a datetime, in calendar order. -/
def datetime.components (d : datetime) : Nat × Nat × Nat × Nat × Nat × Nat × Nat :=
  (d.era.era, d.year.year, d.season.season_of_year, d.day.day_of_season,
   d.hour.hour, d.minute.minute, d.second)

/-- Modelled from the spec: the absolute offset as the sum of all seven
per-level offsets (spec section 4.4), each level's offset being the time
elapsed before that unit's start within its parent's frame.  For the season
that elapsed time is (ordinal - 1) regular-season lengths, uniformly: the
Festival (ordinal 9) starts after 8 regular seasons. -/
def datetime.spec_seven_sum (d : datetime) : Nat :=
  d.era.as_seconds + d.year.as_seconds +
    (d.season.season_of_year - 1) * Season.length_in_seconds +
    d.day.as_seconds + d.hour.as_seconds + d.minute.as_seconds + d.second

/-- Modelled from the spec: the Year's fixed sequence of 9 (length,
cumulative-offset) pairs, 8 regular seasons followed by the Festival
(spec section 4.4, edge case). -/
def spec_season_table : List (Nat × Nat) :=
  [(Season.length_in_seconds, 0 * Season.length_in_seconds),
   (Season.length_in_seconds, 1 * Season.length_in_seconds),
   (Season.length_in_seconds, 2 * Season.length_in_seconds),
   (Season.length_in_seconds, 3 * Season.length_in_seconds),
   (Season.length_in_seconds, 4 * Season.length_in_seconds),
   (Season.length_in_seconds, 5 * Season.length_in_seconds),
   (Season.length_in_seconds, 6 * Season.length_in_seconds),
   (Season.length_in_seconds, 7 * Season.length_in_seconds),
   (FestivalOfTheHunt.length_in_seconds, 8 * Season.length_in_seconds)]

/-- Modelled from the spec: walk a (length, cumulative offset) table and return
the 0-based index of the entry whose offset range contains rem, together with
the remainder into that entry. -/
def spec_find_season (rem : Nat) : Nat → List (Nat × Nat) → Option (Nat × Nat)
  | _, [] => none
  | i, (len, off) :: rest =>
      if off ≤ rem ∧ rem < off + len then some (i, rem - off)
      else spec_find_season rem (i + 1) rest

/-- Modelled from the spec: the season selected for a within-year remainder by
walking the Year's fixed 9-entry table. -/
def spec_walk_season (rem : Nat) : Option (Nat × Nat) :=
  spec_find_season rem 0 spec_season_table

/-- Helper: a successful Minute.init stores exactly the argument it was given. -/
theorem minute_init_ok (n : Nat) (m : Minute) (h : Minute.init n = Except.ok m) :
    m = ⟨n⟩ := by
  unfold Minute.init at h
  split at h
  · exact Except.noConfusion h
  · exact (Except.ok.inj h).symm

/-- Helper: every datetime the seven-component constructor produces stores the
hour argument in its minute field (source line 150, self.minute = Minute(hour)). -/
theorem datetime_init_minute (e y s d h m sec : Nat) (dt : datetime)
    (hinit : datetime.init e y s d h m sec = Except.ok dt) : dt.minute = ⟨h⟩ := by
  unfold datetime.init at hinit
  repeat' split at hinit
  all_goals try exact Except.noConfusion hinit
  cases Except.ok.inj hinit
  exact minute_init_ok h _ (by assumption)

/-- Helper: on every within-year remainder, the simple floor division by the
regular season length (the code's season step, source lines 254-258) selects
the same season index and within-season remainder as walking the spec's
9-entry (length, cumulative offset) table, and the resulting day index is in
range for the selected season. -/
theorem walk_div_agree (rem : Nat) (h : rem < Year.length_in_seconds) :
    spec_walk_season rem =
      some (rem / Season.length_in_seconds,
            rem - rem / Season.length_in_seconds * Season.length_in_seconds) ∧
    (rem - rem / Season.length_in_seconds * Season.length_in_seconds) /
        Day.length_in_seconds <
      (if rem / Season.length_in_seconds = 8 then FestivalOfTheHunt.length_in_days
       else Season.length_in_days) := by
  have hY : Year.length_in_seconds = 31536000 := by rfl
  have hS : Season.length_in_seconds = 3888000 := by rfl
  have hF : FestivalOfTheHunt.length_in_seconds = 432000 := by rfl
  have hD : Day.length_in_seconds = 86400 := by rfl
  have hRd : Season.length_in_days = 45 := by rfl
  have hFd : FestivalOfTheHunt.length_in_days = 5 := by rfl
  rw [hY] at h
  simp only [spec_walk_season, spec_season_table, spec_find_season, hS, hF, hD, hRd, hFd]
  constructor
  · split_ifs <;>
      first
        | (simp only [Option.some.injEq, Prod.mk.injEq]; omega)
        | (exfalso; omega)
  · split_ifs <;> omega

/-- C1: the spec claims compose(decompose(t)) = t for every t with
0 <= t < 3 * Era.length_in_seconds.  The code violates this already at t = 1:
datetime.as_seconds sums only the era, year, season and day components, so the
recomposed offset of from_seconds(1) is 0, not 1. -/
theorem C1_round_trip_scalar_fails :
    1 < 3 * Era.length_in_seconds ∧
    (datetime.from_seconds 1).map datetime.as_seconds = Except.ok 0 :=
  ⟨by decide, rfl⟩

/-- C2: the spec claims decompose(compose(d)) = d for every valid structured
datetime.  The code violates it: for d built from
(era 1, year 1, season 1, day 1, hour 0, minute 0, second 1), as_seconds drops
the second component, and decomposing the resulting offset 0 returns second 0. -/
theorem C2_round_trip_struct_fails :
    ∃ dt, datetime.init 1 1 1 1 0 0 1 = Except.ok dt ∧ dt.second = 1 ∧
      (datetime.from_seconds dt.as_seconds).map datetime.second = Except.ok 0 :=
  ⟨⟨⟨1, none⟩, ⟨1, ⟨1, none⟩⟩, ⟨1, 1, false⟩, ⟨1, some ⟨1, 1, false⟩⟩, ⟨0⟩, ⟨0⟩, 1⟩,
    rfl, rfl, rfl⟩

/-- C3: the spec claims as_seconds equals the sum of all seven per-level
offsets.  The code sums only the four date components: for the datetime built
from (1, 1, 1, 1, hour 0, minute 0, second 5) the seven-level sum is 5 while
as_seconds is 0. -/
theorem C3_as_seconds_not_seven_sum :
    ∃ dt, datetime.init 1 1 1 1 0 0 5 = Except.ok dt ∧
      datetime.as_seconds dt = 0 ∧ datetime.spec_seven_sum dt = 5 :=
  ⟨⟨⟨1, none⟩, ⟨1, ⟨1, none⟩⟩, ⟨1, 1, false⟩, ⟨1, some ⟨1, 1, false⟩⟩, ⟨0⟩, ⟨0⟩, 5⟩,
    rfl, rfl, rfl⟩

/-- C4 counterexample: the claim says Day(6) under the Festival fails, but
Day.init validates only against the class constant 45, so it succeeds. -/
theorem C4_counterexample :
    Day.init 6 (some (FestivalOfTheHunt.init 1)) =
      Except.ok ⟨6, some (FestivalOfTheHunt.init 1)⟩ := rfl

/-- C4 (amended): Day construction is bounded by the fixed class-level regular
season length 45 regardless of the owning season: ordinals 45, 5 and 6 succeed
under any season (so also under the Festival) and 46 fails with
InvalidDayError. -/
theorem C4_day_bound_amended (s : Option Season) :
    Day.init 45 s = Except.ok ⟨45, s⟩ ∧
    Day.init 46 s = Except.error Err.invalidDay ∧
    Day.init 5 s = Except.ok ⟨5, s⟩ ∧
    Day.init 6 s = Except.ok ⟨6, s⟩ := by
  refine ⟨?_, ?_, ?_, ?_⟩ <;>
    · unfold Day.init
      first
        | rw [if_neg (by decide)]
        | rw [if_pos (by decide)]

/-- Witness for C4 at the empty owning-season reference. -/
theorem C4_day_bound_amended_witness :
    Day.init 45 none = Except.ok ⟨45, none⟩ ∧
    Day.init 46 none = Except.error Err.invalidDay ∧
    Day.init 5 none = Except.ok ⟨5, none⟩ ∧
    Day.init 6 none = Except.ok ⟨6, none⟩ :=
  C4_day_bound_amended none

/-- C5: the claim says constructing a Season with ordinal 9 yields a Festival
variant.  In the code, Season.init executes return FestivalOfTheHunt(year),
and a Python init returning non-None raises TypeError, so the construction
fails instead.  Ordinals 0 and 10 fail with InvalidSeasonError as claimed. -/
theorem C5_season_nine_raises :
    Season.init 9 1 = Except.error Err.typeError ∧
    Season.init 0 1 = Except.error Err.invalidSeason ∧
    Season.init 10 1 = Except.error Err.invalidSeason := ⟨rfl, rfl, rfl⟩

/-- C6 counterexample: the claim asserts some within-year remainder on which
floor division by the regular season length disagrees with walking the
9-entry table (or produces an out-of-range day).  No such remainder exists. -/
theorem C6_counterexample :
    ¬ ∃ rem, rem < Year.length_in_seconds ∧
      (spec_walk_season rem ≠
          some (rem / Season.length_in_seconds,
                rem - rem / Season.length_in_seconds * Season.length_in_seconds) ∨
        (if rem / Season.length_in_seconds = 8 then FestivalOfTheHunt.length_in_days
         else Season.length_in_days) ≤
          (rem - rem / Season.length_in_seconds * Season.length_in_seconds) /
            Day.length_in_seconds) := by
  rintro ⟨rem, hrem, hbad⟩
  rcases walk_div_agree rem hrem with ⟨h1, h2⟩
  rcases hbad with hb | hb
  · exact hb h1
  · omega

/-- C6 (amended): the season step of decomposition CAN be computed by simple
floor division by the single regular season length: on every within-year
remainder it selects the same season index and within-season remainder as
walking the Year's fixed sequence of 9 (length, cumulative-offset) pairs, and
the resulting day is in range for the selected season, because the short
Festival is the final season. -/
theorem C6_walk_equals_division (rem : Nat) (h : rem < Year.length_in_seconds) :
    spec_walk_season rem =
      some (rem / Season.length_in_seconds,
            rem - rem / Season.length_in_seconds * Season.length_in_seconds) ∧
    (rem - rem / Season.length_in_seconds * Season.length_in_seconds) /
        Day.length_in_seconds <
      (if rem / Season.length_in_seconds = 8 then FestivalOfTheHunt.length_in_days
       else Season.length_in_days) :=
  walk_div_agree rem h

/-- Witness for C6 at the festival boundary remainder 31104000 = 8 regular
season lengths. -/
theorem C6_walk_equals_division_witness :
    31104000 < Year.length_in_seconds ∧
    (spec_walk_season 31104000 =
        some (31104000 / Season.length_in_seconds,
              31104000 - 31104000 / Season.length_in_seconds * Season.length_in_seconds) ∧
      (31104000 - 31104000 / Season.length_in_seconds * Season.length_in_seconds) /
          Day.length_in_seconds <
        (if 31104000 / Season.length_in_seconds = 8 then FestivalOfTheHunt.length_in_days
         else Season.length_in_days)) :=
  ⟨by decide, C6_walk_equals_division 31104000 (by decide)⟩

/-- C7: the spec claims decomposition is monotone in the component tuple.  The
code violates it at t1 = 59, t2 = 60: because the constructor stores
Minute(hour), from_seconds(60) has minute 0 and second 0, so its tuple
(1,1,1,1,0,0,0) is lexicographically below from_seconds(59)'s
(1,1,1,1,0,0,59). -/
theorem C7_monotonicity_fails :
    (datetime.from_seconds 59).map datetime.components = Except.ok (1, 1, 1, 1, 0, 0, 59) ∧
    (datetime.from_seconds 60).map datetime.components = Except.ok (1, 1, 1, 1, 0, 0, 0) :=
  ⟨rfl, rfl⟩

/-- C8: the claim says the season at ordinal 9 of every constructed Year is a
Festival with exactly 5 days.  Evaluating the Year built from Year(1, Era(3)):
the 9th season is indeed the Festival and immediately follows ordinal 8, but
its days list has 45 entries, because Season.days iterates the class constant
Season.length_in_days. -/
theorem C8_festival_days_length :
    (do
      let e ← Era.init 3 none
      let y ← Year.init 1 e
      Year.seasons y).map
        (fun ss : List Season =>
          ss.map fun s : Season => (s.season_of_year, s.isFestival, (Season.days s).length))
    = Except.ok [(1, false, 45), (2, false, 45), (3, false, 45), (4, false, 45),
                 (5, false, 45), (6, false, 45), (7, false, 45), (8, false, 45),
                 (9, true, 45)] := rfl

/-- C9: the claim says Era construction succeeds exactly for ordinals 1..3.
The code's bound check is era > len(long_names) + 1, so Era(4) is accepted,
contradicting the constructor's own docstring; 0 and 5 are rejected and 1..3
are accepted. -/
theorem C9_era_four_accepted :
    Era.init 4 none = Except.ok ⟨4, none⟩ ∧
    Era.init 0 none = Except.error Err.invalidEra ∧
    Era.init 5 none = Except.error Err.invalidEra ∧
    Era.init 1 none = Except.ok ⟨1, none⟩ ∧
    Era.init 3 none = Except.ok ⟨3, none⟩ := ⟨rfl, rfl, rfl, rfl, rfl⟩

/-- C10: the seven-component datetime constructor ignores its minute argument:
every successfully constructed datetime stores the hour argument in its minute
field, and two calls differing only in the minute argument construct datetimes
with identical minute fields. -/
theorem C10_minute_ignored :
    (∀ e y s d h m sec dt,
        datetime.init e y s d h m sec = Except.ok dt → dt.minute.minute = h) ∧
    (∀ e y s d h m1 m2 sec dt1 dt2,
        datetime.init e y s d h m1 sec = Except.ok dt1 →
        datetime.init e y s d h m2 sec = Except.ok dt2 →
        dt1.minute = dt2.minute) := by
  constructor
  · intro e y s d h m sec dt hinit
    rw [datetime_init_minute e y s d h m sec dt hinit]
  · intro e y s d h m1 m2 sec dt1 dt2 h1 h2
    rw [datetime_init_minute e y s d h m1 sec dt1 h1,
        datetime_init_minute e y s d h m2 sec dt2 h2]

/-- Witness for C10: constructing with hour 5 and minute 7 stores minute 5. -/
theorem C10_minute_ignored_witness :
    ∃ dt, datetime.init 1 1 1 1 5 7 0 = Except.ok dt ∧ dt.minute.minute = 5 := by
  refine ⟨⟨⟨1, none⟩, ⟨1, ⟨1, none⟩⟩, ⟨1, 1, false⟩, ⟨1, some ⟨1, 1, false⟩⟩,
          ⟨5⟩, ⟨5⟩, 0⟩, rfl, ?_⟩
  exact C10_minute_ignored.1 1 1 1 1 5 7 0
    ⟨⟨1, none⟩, ⟨1, ⟨1, none⟩⟩, ⟨1, 1, false⟩, ⟨1, some ⟨1, 1, false⟩⟩, ⟨5⟩, ⟨5⟩, 0⟩
    rfl

end Telisaran
